import Mathlib

/-!
Shallow embedding of `main.py` of the pearbot repository: a Flask webhook
endpoint dispatching GitHub events (`pull_request`, `pull_request_review`,
`issue_comment`) to handlers that update per-pull-request conversational
sessions, fetch diffs, invoke an analysis agent and (in the source, with the
actual posting calls commented out) publish review comments.

Python dictionaries/JSON payloads are modelled by the `Json` type; Python
exceptions by `PyErr`; the mutable session store plus the observable effect
trace by the state `St`, threaded explicitly through each handler.  External
collaborators (signature verifier, token exchange, GitHub client, analysis
agent) are parameters of an `Env` record, since their code is not part of
`main.py`.
-/

/-- Python/JSON values as they appear in webhook payloads and collaborator
results.  Dict keys are arbitrary values (Python dicts key by value); the
handlers only ever look keys up by string. -/
inductive Json where
  | null : Json
  | bool : Bool → Json
  | num : Int → Json
  | str : String → Json
  | arr : List Json → Json
  | obj : List (Json × Json) → Json

mutual
def Json.decEq : (a b : Json) → Decidable (a = b)
  | .null, .null => isTrue rfl
  | .null, .bool _ => isFalse (fun h => Json.noConfusion h)
  | .null, .num _ => isFalse (fun h => Json.noConfusion h)
  | .null, .str _ => isFalse (fun h => Json.noConfusion h)
  | .null, .arr _ => isFalse (fun h => Json.noConfusion h)
  | .null, .obj _ => isFalse (fun h => Json.noConfusion h)
  | .bool _, .null => isFalse (fun h => Json.noConfusion h)
  | .bool a, .bool b =>
    if h : a = b then isTrue (by rw [h]) else isFalse (fun hh => h (Json.bool.inj hh))
  | .bool _, .num _ => isFalse (fun h => Json.noConfusion h)
  | .bool _, .str _ => isFalse (fun h => Json.noConfusion h)
  | .bool _, .arr _ => isFalse (fun h => Json.noConfusion h)
  | .bool _, .obj _ => isFalse (fun h => Json.noConfusion h)
  | .num _, .null => isFalse (fun h => Json.noConfusion h)
  | .num _, .bool _ => isFalse (fun h => Json.noConfusion h)
  | .num a, .num b =>
    if h : a = b then isTrue (by rw [h]) else isFalse (fun hh => h (Json.num.inj hh))
  | .num _, .str _ => isFalse (fun h => Json.noConfusion h)
  | .num _, .arr _ => isFalse (fun h => Json.noConfusion h)
  | .num _, .obj _ => isFalse (fun h => Json.noConfusion h)
  | .str _, .null => isFalse (fun h => Json.noConfusion h)
  | .str _, .bool _ => isFalse (fun h => Json.noConfusion h)
  | .str _, .num _ => isFalse (fun h => Json.noConfusion h)
  | .str a, .str b =>
    if h : a = b then isTrue (by rw [h]) else isFalse (fun hh => h (Json.str.inj hh))
  | .str _, .arr _ => isFalse (fun h => Json.noConfusion h)
  | .str _, .obj _ => isFalse (fun h => Json.noConfusion h)
  | .arr _, .null => isFalse (fun h => Json.noConfusion h)
  | .arr _, .bool _ => isFalse (fun h => Json.noConfusion h)
  | .arr _, .num _ => isFalse (fun h => Json.noConfusion h)
  | .arr _, .str _ => isFalse (fun h => Json.noConfusion h)
  | .arr xs, .arr ys =>
    match Json.decEqList xs ys with
    | isTrue h => isTrue (by rw [h])
    | isFalse h => isFalse (fun hh => h (Json.arr.inj hh))
  | .arr _, .obj _ => isFalse (fun h => Json.noConfusion h)
  | .obj _, .null => isFalse (fun h => Json.noConfusion h)
  | .obj _, .bool _ => isFalse (fun h => Json.noConfusion h)
  | .obj _, .num _ => isFalse (fun h => Json.noConfusion h)
  | .obj _, .str _ => isFalse (fun h => Json.noConfusion h)
  | .obj _, .arr _ => isFalse (fun h => Json.noConfusion h)
  | .obj fs, .obj gs =>
    match Json.decEqFields fs gs with
    | isTrue h => isTrue (by rw [h])
    | isFalse h => isFalse (fun hh => h (Json.obj.inj hh))

def Json.decEqList : (a b : List Json) → Decidable (a = b)
  | [], [] => isTrue rfl
  | [], _ :: _ => isFalse (fun h => List.noConfusion h)
  | _ :: _, [] => isFalse (fun h => List.noConfusion h)
  | x :: xs, y :: ys =>
    match Json.decEq x y, Json.decEqList xs ys with
    | isTrue h1, isTrue h2 => isTrue (by rw [h1, h2])
    | isFalse h1, _ => isFalse (fun h => by injection h with ha hb; exact h1 ha)
    | _, isFalse h2 => isFalse (fun h => by injection h with ha hb; exact h2 hb)

def Json.decEqFields : (a b : List (Json × Json)) → Decidable (a = b)
  | [], [] => isTrue rfl
  | [], _ :: _ => isFalse (fun h => List.noConfusion h)
  | _ :: _, [] => isFalse (fun h => List.noConfusion h)
  | (k1, v1) :: t1, (k2, v2) :: t2 =>
    match Json.decEq k1 k2, Json.decEq v1 v2, Json.decEqFields t1 t2 with
    | isTrue hk, isTrue hv, isTrue ht => isTrue (by rw [hk, hv, ht])
    | isFalse hk, _, _ =>
      isFalse (fun h => by injection h with ha hb; exact hk (congrArg Prod.fst ha))
    | _, isFalse hv, _ =>
      isFalse (fun h => by injection h with ha hb; exact hv (congrArg Prod.snd ha))
    | _, _, isFalse ht => isFalse (fun h => by injection h with ha hb; exact ht hb)
end

instance : DecidableEq Json := Json.decEq

/-- Python exceptions that can arise in `main.py`:  `KeyError` from dict
subscripts, `AttributeError` from `.items()` on a non-dict,  `TypeError` from
`in` on a non-container, `IndexError` from `[-1]` on an empty list,
`GithubException` (status, data) from the GitHub client, an arbitrary
collaborator exception, and Flask's `abort(401)` HTTPException. -/
inductive PyErr where
  | keyError : String → PyErr
  | attributeError : String → PyErr
  | typeError : String → PyErr
  | indexError : PyErr
  | githubException : Int → String → PyErr
  | exc : String → PyErr
  | httpAbort : Nat → PyErr
deriving DecidableEq

/-- Python type name of a value, as used in exception messages. -/
def Json.typeName : Json → String
  | .null => "NoneType"
  | .bool _ => "bool"
  | .num _ => "int"
  | .str _ => "str"
  | .arr _ => "list"
  | .obj _ => "dict"

/-- First value bound to the string key `s` in a dict's field list. -/
def Json.lookupStr : List (Json × Json) → String → Option Json
  | [], _ => none
  | (k, v) :: rest, s => if k = Json.str s then some v else Json.lookupStr rest s

/-- `d[k]` for a string key `k`: `KeyError` when the key is missing,
`TypeError` when the value is not a dict (Python raises on non-subscriptable
receivers; string/list subscripts with a string key also raise `TypeError`). -/
def Json.getItem : Json → String → Except PyErr Json
  | .obj fields, k =>
    match Json.lookupStr fields k with
    | some v => .ok v
    | none => .error (.keyError k)
  | j, _ => .error (.typeError (j.typeName ++ " is not subscriptable by str"))

/-- `d.items()`: the key/value pairs of a dict; `AttributeError` on any other
value (in particular on a plain string). -/
def Json.items : Json → Except PyErr (List (Json × Json))
  | .obj fields => .ok fields
  | j => .error (.attributeError
      ("'" ++ j.typeName ++ "' object has no attribute 'items'"))

/-- Is `needle` a substring of `hay` (Python `needle in hay` for strings). -/
def strContainsSub (hay needle : String) : Bool :=
  (List.range (hay.length + 1)).any fun i => needle.isPrefixOf (hay.drop i)

/-- Python `k in j` for a string `k`: key membership for dicts, substring test
for strings, element membership for lists, `TypeError` otherwise. -/
def Json.pyContains (j : Json) (k : String) : Except PyErr Bool :=
  match j with
  | .obj fields => .ok ((Json.lookupStr fields k).isSome)
  | .str s => .ok (strContainsSub s k)
  | .arr xs => .ok (xs.any fun x => x = Json.str k)
  | _ => .error (.typeError ("argument of type '" ++ j.typeName ++ "' is not iterable"))

/-- One hex digit, for JSON control-character escapes. -/
def hexDigit (n : Nat) : String :=
  if n < 10 then toString n
  else if n = 10 then "a" else if n = 11 then "b" else if n = 12 then "c"
  else if n = 13 then "d" else if n = 14 then "e" else "f"

/-- JSON string escaping as performed by `json.dumps` on ASCII input. -/
def jsonEscapeChar (c : Char) : String :=
  if c = '"' then "\\\""
  else if c = '\\' then "\\\\"
  else if c = '\n' then "\\n"
  else if c = '\t' then "\\t"
  else if c = '\r' then "\\r"
  else if c = '\x08' then "\\b"
  else if c = '\x0c' then "\\f"
  else if c.toNat < 32 then "\\u00" ++ hexDigit (c.toNat / 16) ++ hexDigit (c.toNat % 16)
  else String.singleton c

def jsonEscape (s : String) : String :=
  String.join (s.toList.map jsonEscapeChar)

/-- `json.dumps` key coercion: non-string dict keys are coerced to their JSON
string form (an int key `12` serializes as `"12"`). -/
def jsonKeyStr : Json → String
  | .str s => "\"" ++ jsonEscape s ++ "\""
  | .num n => "\"" ++ toString n ++ "\""
  | .bool true => "\"true\""
  | .bool false => "\"false\""
  | .null => "\"null\""
  | _ => "\"<unhashable>\""

mutual
/-- `json.dumps(j)` with the default separators `", "` and `": "`. -/
def Json.dumps : Json → String
  | .null => "null"
  | .bool true => "true"
  | .bool false => "false"
  | .num n => toString n
  | .str s => "\"" ++ jsonEscape s ++ "\""
  | .arr xs => "[" ++ Json.dumpsList xs ++ "]"
  | .obj fields => "\x7b" ++ Json.dumpsFields fields ++ "\x7d"

def Json.dumpsList : List Json → String
  | [] => ""
  | [x] => Json.dumps x
  | x :: xs => Json.dumps x ++ ", " ++ Json.dumpsList xs

def Json.dumpsFields : List (Json × Json) → String
  | [] => ""
  | [(k, v)] => jsonKeyStr k ++ ": " ++ Json.dumps v
  | (k, v) :: fs => jsonKeyStr k ++ ": " ++ Json.dumps v ++ ", " ++ Json.dumpsFields fs
end

mutual
/-- Python `repr(j)` (string quoting simplified to plain single quotes). -/
def Json.pyRepr : Json → String
  | .null => "None"
  | .bool true => "True"
  | .bool false => "False"
  | .num n => toString n
  | .str s => "'" ++ s ++ "'"
  | .arr xs => "[" ++ Json.pyReprList xs ++ "]"
  | .obj fields => "\x7b" ++ Json.pyReprFields fields ++ "\x7d"

def Json.pyReprList : List Json → String
  | [] => ""
  | [x] => Json.pyRepr x
  | x :: xs => Json.pyRepr x ++ ", " ++ Json.pyReprList xs

def Json.pyReprFields : List (Json × Json) → String
  | [] => ""
  | [(k, v)] => Json.pyRepr k ++ ": " ++ Json.pyRepr v
  | (k, v) :: fs => Json.pyRepr k ++ ": " ++ Json.pyRepr v ++ ", " ++ Json.pyReprFields fs
end

/-- Python `str(j)`, as interpolated by f-strings: a string renders as itself,
every other value as its repr. -/
def Json.pyStr : Json → String
  | .str s => s
  | j => j.pyRepr

instance {ε α : Type} [DecidableEq ε] [DecidableEq α] : DecidableEq (Except ε α)
  | .ok a, .ok b =>
    if h : a = b then isTrue (by rw [h]) else isFalse (fun hh => h (Except.ok.inj hh))
  | .ok _, .error _ => isFalse (fun h => Except.noConfusion h)
  | .error _, .ok _ => isFalse (fun h => Except.noConfusion h)
  | .error a, .error b =>
    if h : a = b then isTrue (by rw [h]) else isFalse (fun hh => h (Except.error.inj hh))

/-! ## Session store

The `storage` module is imported by `main.py` but is not among the provided
sources; it is modelled from the spec (§3, §4.2). -/

/-- The composite session key, exactly the two values the handlers pass to
`get_or_create_session`: the pull-request number and the repository full
name. -/
abbrev SessionKey := Json × Json

/-- An ordered transcript of (role, content) messages. -/
abbrev Transcript := List (String × String)

/-- The session store: key → transcript registry. -/
abbrev Store := List (SessionKey × Transcript)

/-- Does the store already hold a session for `key`? -/
def hasSession : Store → SessionKey → Bool
  | [], _ => false
  | (k, _) :: rest, key => if k = key then true else hasSession rest key

/-- Modelled from the spec: `get_or_create_session` (storage module, absent
from the sources).  Per §4.2 it returns the existing session for the key if
present, else registers a new empty session. -/
def get_or_create_session (prNumber repoName : Json) (store : Store) : Store :=
  if hasSession store (prNumber, repoName) then store
  else store ++ [((prNumber, repoName), [])]

/-- Modelled from the spec: `Session.add_message` (storage module, absent from
the sources).  Per §4.2 it appends a role-tagged message to the session's
transcript; rendered here as an update of the session's entry by key. -/
def add_message (prNumber repoName : Json) (role content : String) (store : Store) : Store :=
  store.map fun kv =>
    if kv.1 = (prNumber, repoName) then (kv.1, kv.2 ++ [(role, content)]) else kv

/-- The transcript held for a key (empty when the session does not exist). -/
def transcript (store : Store) (prNumber repoName : Json) : Transcript :=
  match store with
  | [] => []
  | (k, t) :: rest => if k = (prNumber, repoName) then t else transcript rest prNumber repoName

/-! ## Effects, state and the Python computation shape -/

/-- One changed-file record, as produced by `pull_request.get_files()` and
consumed at lines 70–90 of `main.py`. -/
structure FileRec where
  filename : String
  status : String
  additions : Int
  deletions : Int
  changes : Int
  patch : String
deriving DecidableEq

/-- Observable effects of a handler run: prints, session appends, and calls to
the external collaborators.  `createReviewComment` is the platform-posting
call; `main.py` contains it only inside commented-out code, so no definition
below ever emits it. -/
inductive Effect where
  | print : String → Effect
  | addMessage : Json → Json → String → String → Effect
  | tokenExchange : Json → Effect
  | getRepo : Json → Effect
  | getPull : Json → Effect
  | getFiles : Effect
  | analyze : Json → Effect
  | getCommits : Effect
  | createReviewComment : Json → Json → Json → Effect
deriving DecidableEq

/-- The mutable state threaded through a request: the session store plus the
trace of effects performed so far. -/
structure St where
  store : Store
  trace : List Effect

/-- Result of running a Python fragment: the final state, and either a normal
value or the exception that escaped.  State mutations performed before an
exception persist (Python has no rollback). -/
abbrev PyRes (α : Type) := St × Except PyErr α

/-- Sequencing with Python exception semantics: an exception skips the rest
while keeping the state reached so far. -/
def pyBind {α β : Type} (m : PyRes α) (f : α → St → PyRes β) : PyRes β :=
  match m with
  | (st, .ok a) => f a st
  | (st, .error e) => (st, .error e)

def pyPure {α : Type} (a : α) (st : St) : PyRes α := (st, .ok a)

def pyRaise {α : Type} (e : PyErr) (st : St) : PyRes α := (st, .error e)

/-- A pure subexpression that may raise (dict subscripts, `.items()`, …). -/
def pyExcept {α : Type} (r : Except PyErr α) (st : St) : PyRes α := (st, r)

def pyGetItem (j : Json) (k : String) (st : St) : PyRes Json := (st, j.getItem k)

def pyPrint (s : String) (st : St) : PyRes Unit :=
  ({ st with trace := st.trace ++ [.print s] }, .ok ())

/-- An external collaborator call: records the call in the trace, then yields
the environment-supplied outcome (normal result or raised exception). -/
def pyCall {α : Type} (eff : Effect) (r : Except PyErr α) (st : St) : PyRes α :=
  ({ st with trace := st.trace ++ [eff] }, r)

def pySessionCreate (prNumber repoName : Json) (st : St) : PyRes Unit :=
  ({ st with store := get_or_create_session prNumber repoName st.store }, .ok ())

def pySessionAdd (prNumber repoName : Json) (role content : String) (st : St) : PyRes Unit :=
  ({ st with
      store := add_message prNumber repoName role content st.store,
      trace := st.trace ++ [.addMessage prNumber repoName role content] }, .ok ())

/-- `try: body except: handler` — the handler receives any exception raised by
the body, starting from the state the body reached. -/
def pyTry {α : Type} (body : St → PyRes α) (handler : PyErr → St → PyRes α)
    (st : St) : PyRes α :=
  match body st with
  | (st', .ok a) => (st', .ok a)
  | (st', .error e) => handler e st'

/-- Outcomes and behaviour of the external collaborators, which are not part
of `main.py`: the signature verifier (`auth.verify_webhook_signature`), the
token exchange (`auth.get_installation_access_token`), the GitHub client
(`Github(...).get_repo/get_pull/get_files/get_commits`) and the analysis agent
(`CodeReviewAgent.analyze_pr`). -/
structure Env where
  verifySig : Bool
  tokenExchange : Json → Except PyErr Json
  getRepo : Json → Except PyErr Unit
  getPull : Json → Except PyErr Unit
  getFiles : Except PyErr (List FileRec)
  analyzePr : Json → Except PyErr Json
  getCommits : Except PyErr (List Json)

/-- `str(e)` for the exception interpolations in the except-branches. -/
def PyErr.pyMsg : PyErr → String
  | .keyError k => "'" ++ k ++ "'"
  | .attributeError m => m
  | .typeError m => m
  | .indexError => "list index out of range"
  | .githubException s d => toString s ++ " " ++ d
  | .exc m => m
  | .httpAbort c => toString c ++ " error"

/-! ## The handlers (`main.py` lines 48–172) -/

/-- The per-file print loop, `main.py` lines 71–74. -/
def printFiles : List FileRec → St → PyRes Unit
  | [], st => (st, .ok ())
  | f :: fs, st =>
    pyBind (pyPrint (f.filename ++ " (" ++ toString f.additions ++ " additions, "
        ++ toString f.deletions ++ " deletions)") st) fun _ st =>
    pyBind (pyPrint ("Changes:\n" ++ toString f.changes) st) fun _ st =>
    pyBind (pyPrint ("Patch:\n" ++ f.patch) st) fun _ st =>
    printFiles fs st

/-- One entry of `pr_data["files"]`, `main.py` lines 80–87. -/
def fileJson (f : FileRec) : Json :=
  .obj [(.str "filename", .str f.filename), (.str "status", .str f.status),
        (.str "additions", .num f.additions), (.str "deletions", .num f.deletions),
        (.str "changes", .num f.changes), (.str "patch", .str f.patch)]

/-- The `pr_data` dict, `main.py` lines 76–90. -/
def buildPrData (title body : Json) (files : List FileRec) : Json :=
  .obj [(.str "title", title), (.str "description", body),
        (.str "files", .arr (files.map fileJson))]

/-- Inner loop of lines 96–101: one review-comment dict per (line, comment)
pair of a file's comment mapping. -/
def flattenFile (path : Json) : List (Json × Json) → List Json
  | [] => []
  | (ln, c) :: rest =>
    Json.obj [(.str "path", path), (.str "line", ln), (.str "body", c)]
      :: flattenFile path rest

/-- Outer loop of lines 95–101 over `file_comments.items()`: per-file comment
mappings are themselves iterated with `.items()`, which raises
`AttributeError` on a non-dict value. -/
def flattenOuter : List (Json × Json) → Except PyErr (List Json)
  | [] => .ok []
  | (path, comments) :: rest =>
    match comments.items with
    | .error e => .error e
    | .ok inner =>
      match flattenOuter rest with
      | .error e => .error e
      | .ok tail => .ok (flattenFile path inner ++ tail)

/-- `review_comments` construction, `main.py` lines 94–101: starts with
`file_comments.items()`, which raises `AttributeError` when the analysis
result is a plain string rather than a mapping. -/
def reviewCommentsOf (fileComments : Json) : Except PyErr (List Json) :=
  match fileComments.items with
  | .error e => .error e
  | .ok outer => flattenOuter outer

/-- The two except-branches of the publish step (`main.py` lines 120–124):
`GithubException` is reported with status and data, any other exception with
its message and a traceback; both are swallowed. -/
def publishExcept (e : PyErr) (st : St) : PyRes Unit :=
  match e with
  | .githubException status data =>
    pyPrint ("GitHub API error: " ++ toString status ++ " - " ++ data) st
  | e =>
    pyBind (pyPrint ("Error posting review: " ++ e.pyMsg) st) fun _ st =>
    pyPrint ("Full exception: Traceback (most recent call last): " ++ e.pyMsg) st

/-- `handle_pull_request` (`main.py` lines 48–136).  Dict subscripts that the
source evaluates more than once (`pr['number']`, `pr['title']`, …) are pure
and repeatable, so each is looked up once, at the position of its first
occurrence in the source. -/
def handle_pull_request (env : Env) (payload : Json) (st : St) : PyRes Unit :=
  pyBind (pyGetItem payload "action" st) fun action st =>
  pyBind (pyGetItem payload "pull_request" st) fun pr st =>
  pyBind (pyGetItem payload "repository" st) fun repo st =>
  pyBind (pyGetItem payload "installation" st) fun installation st =>
  pyBind (pyGetItem installation "id" st) fun installationId st =>
  -- line 54: session = get_or_create_session(pr['number'], repo['full_name'])
  pyBind (pyGetItem pr "number" st) fun prNumber st =>
  pyBind (pyGetItem repo "full_name" st) fun repoFullName st =>
  pyBind (pySessionCreate prNumber repoFullName st) fun _ st =>
  -- line 55: system message with action and title
  pyBind (pyGetItem pr "title" st) fun title st =>
  pyBind (pySessionAdd prNumber repoFullName "system"
      ("Pull Request #" ++ prNumber.pyStr ++ " " ++ action.pyStr ++ ": "
        ++ title.pyStr) st) fun _ st =>
  -- line 56: user message with the description
  pyBind (pyGetItem pr "body" st) fun body st =>
  pyBind (pySessionAdd prNumber repoFullName "user"
      ("Description: " ++ body.pyStr) st) fun _ st =>
  -- lines 58–61: log prints (line 60 subscripts pr['user']['login'])
  pyBind (pyPrint ("\nPull Request #" ++ prNumber.pyStr ++ " " ++ action.pyStr
      ++ ": " ++ title.pyStr) st) fun _ st =>
  pyBind (pyPrint ("Repository: " ++ repoFullName.pyStr) st) fun _ st =>
  pyBind (pyGetItem pr "user" st) fun user st =>
  pyBind (pyGetItem user "login" st) fun login st =>
  pyBind (pyPrint ("Created by: " ++ login.pyStr) st) fun _ st =>
  pyBind (pyPrint ("Description: " ++ body.pyStr) st) fun _ st =>
  -- line 63: access_token = get_installation_access_token(installation_id)
  pyBind (pyCall (.tokenExchange installationId) (env.tokenExchange installationId) st)
    fun _accessToken st =>
  -- lines 64–66: Github client, repo and pull objects
  pyBind (pyCall (.getRepo repoFullName) (env.getRepo repoFullName) st) fun _ st =>
  pyBind (pyCall (.getPull prNumber) (env.getPull prNumber) st) fun _ st =>
  -- line 68: diff_files = pull_request.get_files()
  pyBind (pyCall .getFiles env.getFiles st) fun diffFiles st =>
  -- lines 70–74: per-file prints
  pyBind (pyPrint "Files changed in PR:" st) fun _ st =>
  pyBind (printFiles diffFiles st) fun _ st =>
  -- lines 92: file_comments = code_review_agent.analyze_pr(pr_data)
  pyBind (pyCall (.analyze (buildPrData title body diffFiles))
      (env.analyzePr (buildPrData title body diffFiles)) st) fun fileComments st =>
  -- lines 94–101: flatten into review_comments
  pyBind (pyExcept (reviewCommentsOf fileComments) st) fun reviewComments st =>
  -- lines 103–124: try block; the create_review / create_review_comment calls
  -- are commented out in the source, so the body only fetches the commits,
  -- takes the last one and prints; both except-branches print and swallow
  pyBind (pyTry
    (fun st =>
      pyBind (pyCall .getCommits env.getCommits st) fun commits st =>
      pyBind (pyExcept (match commits.getLast? with
        | some c => .ok c
        | none => .error .indexError) st) fun _latestCommit st =>
      pyPrint ("Posted review with " ++ toString reviewComments.length ++ " comments") st)
    publishExcept
    st) fun _ st =>
  -- line 126
  pyBind (pyPrint ("Review comments: " ++ (Json.arr reviewComments).pyStr) st) fun _ st =>
  -- line 136: session.add_message("assistant", json.dumps(file_comments))
  pySessionAdd prNumber repoFullName "assistant" fileComments.dumps st

/-- `handle_pull_request_review` (`main.py` lines 138–154). -/
def handle_pull_request_review (_env : Env) (payload : Json) (st : St) : PyRes Unit :=
  pyBind (pyGetItem payload "action" st) fun action st =>
  pyBind (pyGetItem payload "review" st) fun review st =>
  pyBind (pyGetItem payload "pull_request" st) fun pr st =>
  pyBind (pyGetItem payload "repository" st) fun repo st =>
  -- line 144
  pyBind (pyGetItem pr "number" st) fun prNumber st =>
  pyBind (pyGetItem repo "full_name" st) fun repoFullName st =>
  pyBind (pySessionCreate prNumber repoFullName st) fun _ st =>
  -- line 145
  pyBind (pyGetItem review "user" st) fun ruser st =>
  pyBind (pyGetItem ruser "login" st) fun rlogin st =>
  pyBind (pyGetItem review "state" st) fun rstate st =>
  pyBind (pyGetItem review "body" st) fun rbody st =>
  pyBind (pySessionAdd prNumber repoFullName "user"
      ("Review by " ++ rlogin.pyStr ++ ": " ++ rstate.pyStr
        ++ "\nComment: " ++ rbody.pyStr) st) fun _ st =>
  -- lines 147–149
  pyBind (pyPrint ("\nPull Request #" ++ prNumber.pyStr ++ " Review "
      ++ action.pyStr) st) fun _ st =>
  pyBind (pyPrint ("Review by " ++ rlogin.pyStr ++ ": " ++ rstate.pyStr) st) fun _ st =>
  pyPrint ("Review comment: " ++ rbody.pyStr) st

/-- `handle_issue_comment` (`main.py` lines 156–172): guarded by
`if "pull_request" in issue`. -/
def handle_issue_comment (_env : Env) (payload : Json) (st : St) : PyRes Unit :=
  pyBind (pyGetItem payload "action" st) fun action st =>
  pyBind (pyGetItem payload "comment" st) fun comment st =>
  pyBind (pyGetItem payload "issue" st) fun issue st =>
  pyBind (pyGetItem payload "repository" st) fun repo st =>
  -- line 162: if "pull_request" in issue
  pyBind (pyExcept (issue.pyContains "pull_request") st) fun isPr st =>
  if isPr then
    pyBind (pyGetItem issue "number" st) fun issueNumber st =>
    pyBind (pyGetItem repo "full_name" st) fun repoFullName st =>
    pyBind (pySessionCreate issueNumber repoFullName st) fun _ st =>
    pyBind (pyGetItem comment "user" st) fun cuser st =>
    pyBind (pyGetItem cuser "login" st) fun clogin st =>
    pyBind (pyGetItem comment "body" st) fun cbody st =>
    pyBind (pySessionAdd issueNumber repoFullName "user"
        ("Comment by " ++ clogin.pyStr ++ ": " ++ cbody.pyStr) st) fun _ st =>
    pyBind (pyPrint ("\nPull Request #" ++ issueNumber.pyStr ++ " Comment "
        ++ action.pyStr) st) fun _ st =>
    pyPrint ("Comment by " ++ clogin.pyStr ++ ": " ++ cbody.pyStr) st
  else
    pyPure () st

/-! ## The webhook endpoint (`main.py` lines 22–46) -/

/-- `str()` of the `X-GitHub-Event` header as interpolated at line 36
(`None` when the header is absent). -/
def optHeaderStr : Option String → String
  | none => "None"
  | some s => s

/-- The event dispatch of `main.py` lines 39–44: an if/elif chain on the
declared event type string; any other type falls through to a no-op. -/
def dispatchEvent (env : Env) (event : Option String) (payload : Json) (st : St) :
    PyRes Unit :=
  if event = some "pull_request" then handle_pull_request env payload st
  else if event = some "pull_request_review" then
    handle_pull_request_review env payload st
  else if event = some "issue_comment" then handle_issue_comment env payload st
  else pyPure () st

/-- The `webhook` view function body: print, verify the signature (aborting
with 401 on failure), read the event header, dispatch by event type and return
`('Webhook received', 200)`.  Exceptions raised by a handler are not caught
here. -/
def webhook (env : Env) (event : Option String) (payload : Json) (st : St) :
    PyRes (String × Nat) :=
  pyBind (pyPrint "Webhook received" st) fun _ st =>
  if env.verifySig then
    pyBind (pyPrint ("Received event: " ++ optHeaderStr event) st) fun _ st =>
    pyBind (dispatchEvent env event payload st) fun _ st =>
    pyPure ("Webhook received", 200) st
  else
    pyBind (pyPrint "Webhook signature verification failed" st) fun _ st =>
    pyRaise (.httpAbort 401) st

/-- What Flask hands back to the platform for one delivery. -/
inductive HttpResponse where
  | ok : String → Nat → HttpResponse
  | clientError : Nat → HttpResponse
  | serverError : PyErr → HttpResponse
deriving DecidableEq

/-- How Flask turns the view's outcome into a platform-visible response: a
normal return becomes the 2xx response, a raised `abort(401)` HTTPException
becomes the client error, and any other escaping exception is an uncaught
error (Flask's 500), never the 200 acknowledgment. -/
def toResponse : Except PyErr (String × Nat) → HttpResponse
  | .ok (b, c) => .ok b c
  | .error (.httpAbort c) => .clientError c
  | .error e => .serverError e

/-- One complete delivery against the endpoint: run the view starting from an
empty trace over the given store; the final state is paired with the response
Flask derives from the view's outcome. -/
def webhook_endpoint (env : Env) (event : Option String) (payload : Json)
    (store : Store) : St × HttpResponse :=
  ((webhook env event payload { store := store, trace := [] }).1,
   toResponse (webhook env event payload { store := store, trace := [] }).2)

/-! ## Observers over traces -/

/-- The session appends recorded in a trace, in order:
(pr number, repo name, role, content). -/
def appendsOf (t : List Effect) : List (Json × Json × String × String) :=
  t.filterMap fun e =>
    match e with
    | .addMessage n r role content => some (n, r, role, content)
    | _ => none

/-- Was a platform review-comment post performed? Counts the
`createReviewComment` calls in a trace. -/
def postCount (t : List Effect) : Nat :=
  (t.filter fun e =>
    match e with
    | .createReviewComment _ _ _ => true
    | _ => false).length

/-- Counts the analysis-collaborator invocations in a trace. -/
def analyzeCount (t : List Effect) : Nat :=
  (t.filter fun e =>
    match e with
    | .analyze _ => true
    | _ => false).length

/-- Is the effect a call to any external collaborator (token exchange, GitHub
client, analysis agent, platform posting)? -/
def isExternalCall : Effect → Bool
  | .tokenExchange _ => true
  | .getRepo _ => true
  | .getPull _ => true
  | .getFiles => true
  | .analyze _ => true
  | .getCommits => true
  | .createReviewComment _ _ _ => true
  | _ => false

/-! ## Concrete fixtures for the scenario claims -/

/-- A pull_request payload as in spec §8: PR #42 "Fix bug" / "Fixes #1", with
the action left as a parameter. -/
def prPayloadWith (action : Json) : Json :=
  .obj [(.str "action", action),
        (.str "pull_request", .obj
          [(.str "number", .num 42), (.str "title", .str "Fix bug"),
           (.str "body", .str "Fixes #1"),
           (.str "user", .obj [(.str "login", .str "octocat")])]),
        (.str "repository", .obj [(.str "full_name", .str "acme/widgets")]),
        (.str "installation", .obj [(.str "id", .num 7)])]

/-- The spec §8 scenario payload: PR #42 opened. -/
def prOpenedPayload : Json := prPayloadWith (.str "opened")

/-- The session key the handler derives from `prOpenedPayload`. -/
def prKey : SessionKey := (.num 42, .str "acme/widgets")

/-- A mapping-shaped analysis result, file path → (line → comment). -/
def mmJson (m : List (String × List (Int × String))) : Json :=
  .obj (m.map fun p =>
    (Json.str p.1, Json.obj (p.2.map fun q => (Json.num q.1, Json.str q.2))))

/-- The spec §8 analysis result: `{"a.py": {12: "missing null check"}}`. -/
def scenarioMapping : Json := mmJson [("a.py", [(12, "missing null check")])]

/-- One changed file for the scenario runs. -/
def scenarioFiles : List FileRec :=
  [{ filename := "a.py", status := "modified", additions := 3, deletions := 1,
     changes := 4, patch := "@@ -1 +1 @@" }]

/-- An environment in which every collaborator succeeds and the analysis
returns the scenario mapping. -/
def envOk : Env :=
  { verifySig := true
    tokenExchange := fun _ => .ok (.str "token")
    getRepo := fun _ => .ok ()
    getPull := fun _ => .ok ()
    getFiles := .ok scenarioFiles
    analyzePr := fun _ => .ok scenarioMapping
    getCommits := .ok [.str "headsha"] }

/-- A pull_request_review payload with the action left as a parameter. -/
def reviewPayloadWith (action : Json) : Json :=
  .obj [(.str "action", action),
        (.str "review", .obj
          [(.str "user", .obj [(.str "login", .str "alice")]),
           (.str "state", .str "approved"), (.str "body", .str "LGTM")]),
        (.str "pull_request", .obj [(.str "number", .num 42)]),
        (.str "repository", .obj [(.str "full_name", .str "acme/widgets")])]

/-- An issue_comment payload; `withPrKey` decides whether the issue object
carries the `pull_request` marker key. -/
def commentPayloadWith (action : Json) (withPrKey : Bool) : Json :=
  .obj [(.str "action", action),
        (.str "comment", .obj
          [(.str "user", .obj [(.str "login", .str "bob")]),
           (.str "body", .str "ship it")]),
        (.str "issue", .obj
          ((if withPrKey then
              [(Json.str "pull_request",
                Json.obj [(.str "url", .str "https://x/pr/42")])]
            else []) ++ [(Json.str "number", Json.num 42)])),
        (.str "repository", .obj [(.str "full_name", .str "acme/widgets")])]

/-- Environment family: the credential exchange raises `e`. -/
def envTokenFail (e : PyErr) : Env :=
  { envOk with tokenExchange := fun _ => .error e }

/-- Environment family: the diff fetch raises `e`. -/
def envFilesFail (e : PyErr) : Env :=
  { envOk with getFiles := .error e }

/-- Environment family: the analysis collaborator returns a plain aggregate
comment string rather than a mapping. -/
def envAgg (s : String) : Env :=
  { envOk with analyzePr := fun _ => .ok (.str s) }

/-- Environment family: the analysis returns the mapping `m` and the
publish-step `get_commits` call raises `e`. -/
def envPublishFail (m : List (String × List (Int × String))) (e : PyErr) : Env :=
  { envOk with analyzePr := fun _ => .ok (mmJson m), getCommits := .error e }

/-! ## Pure data used by the run-characterization lemmas -/

/-- The print effects emitted by the loop over the diff files
(lines 71–74), as pure data. -/
def filePrints : List FileRec → List Effect
  | [] => []
  | f :: fs =>
    .print (f.filename ++ " (" ++ toString f.additions ++ " additions, "
        ++ toString f.deletions ++ " deletions)")
      :: .print ("Changes:\n" ++ toString f.changes)
      :: .print ("Patch:\n" ++ f.patch)
      :: filePrints fs

/-- The print effects emitted by the publish except-branches, as pure data. -/
def publishFailPrints (e : PyErr) : List Effect :=
  match e with
  | .githubException status data =>
    [.print ("GitHub API error: " ++ toString status ++ " - " ++ data)]
  | e =>
    [.print ("Error posting review: " ++ e.pyMsg),
     .print ("Full exception: Traceback (most recent call last): " ++ e.pyMsg)]

/-- The flattening of a mapping-shaped analysis result, as pure data: one
review-comment record per (line, comment) pair, in mapping order. -/
def flatMapping : List (String × List (Int × String)) → List Json
  | [] => []
  | p :: rest =>
    (p.2.map fun q => Json.obj [(.str "path", .str p.1), (.str "line", .num q.1),
      (.str "body", .str q.2)]) ++ flatMapping rest

/-- All session appends recorded in a trace use a role from the enumerated
set `{system, user, assistant}`. -/
def RolesOk (t : List Effect) : Prop :=
  ∀ x ∈ appendsOf t, x.2.2.1 = "system" ∨ x.2.2.1 = "user" ∨ x.2.2.1 = "assistant"

/-! ## Store and trace lemmas -/

theorem appendsOf_append (t₁ t₂ : List Effect) :
    appendsOf (t₁ ++ t₂) = appendsOf t₁ ++ appendsOf t₂ :=
  List.filterMap_append t₁ t₂ _

theorem hasSession_get_or_create (store : Store) (n r : Json) :
    hasSession (get_or_create_session n r store) (n, r) = true := by
  unfold get_or_create_session
  split
  · assumption
  · induction store with
    | nil => simp [hasSession]
    | cons kv rest ih =>
      cases kv with
      | mk k t =>
        by_cases hk : k = (n, r) <;> simp_all [hasSession]

theorem transcript_absent (store : Store) (n r : Json)
    (h : hasSession store (n, r) = false) : transcript store n r = [] := by
  induction store with
  | nil => rfl
  | cons kv rest ih =>
    cases kv with
    | mk k t =>
      by_cases hk : k = (n, r) <;> simp_all [hasSession, transcript]

theorem transcript_get_or_create (store : Store) (n r : Json) :
    transcript (get_or_create_session n r store) n r = transcript store n r := by
  unfold get_or_create_session
  split
  · rfl
  · rename_i h
    rw [transcript_absent store n r (by simpa using h)]
    induction store with
    | nil => simp [transcript]
    | cons kv rest ih =>
      cases kv with
      | mk k t =>
        by_cases hk : k = (n, r)
        · subst hk; simp [hasSession] at h
        · simp_all [hasSession, transcript]

theorem add_message_cons (k : SessionKey) (t : Transcript) (rest : Store)
    (n r : Json) (role content : String) :
    add_message n r role content ((k, t) :: rest)
      = (if k = (n, r) then (k, t ++ [(role, content)]) else (k, t))
          :: add_message n r role content rest := by
  simp only [add_message, List.map_cons]

theorem transcript_add_message (store : Store) (n r : Json) (role content : String)
    (h : hasSession store (n, r) = true) :
    transcript (add_message n r role content store) n r
      = transcript store n r ++ [(role, content)] := by
  induction store with
  | nil => simp [hasSession] at h
  | cons kv rest ih =>
    obtain ⟨k, t⟩ := kv
    rw [add_message_cons]
    by_cases hk : k = (n, r)
    · subst hk
      rw [if_pos rfl]
      simp [transcript]
    · rw [if_neg hk]
      simp only [transcript, if_neg hk]
      simp only [hasSession, if_neg hk] at h
      exact ih h

theorem hasSession_add_message (store : Store) (n r : Json) (role content : String)
    (k : SessionKey) :
    hasSession (add_message n r role content store) k = hasSession store k := by
  induction store with
  | nil => rfl
  | cons kv rest ih =>
    obtain ⟨k', t⟩ := kv
    rw [add_message_cons]
    by_cases h1 : k' = (n, r)
    · rw [if_pos h1]
      simp only [hasSession, ih]
    · rw [if_neg h1]
      simp only [hasSession, ih]

/-- Transcript after the two step-1 appends of the pull-request handler, over
an arbitrary starting store. -/
theorem transcript_two_appends (store : Store) (n r : Json)
    (role₁ content₁ role₂ content₂ : String) :
    transcript (add_message n r role₂ content₂
        (add_message n r role₁ content₁ (get_or_create_session n r store))) n r
      = transcript store n r ++ [(role₁, content₁), (role₂, content₂)] := by
  rw [transcript_add_message _ _ _ _ _
      (by rw [hasSession_add_message]; exact hasSession_get_or_create store n r),
    transcript_add_message _ _ _ _ _ (hasSession_get_or_create store n r),
    transcript_get_or_create, List.append_assoc]
  rfl

/-! ## Step equations for symbolic execution of handler runs -/

theorem pyBind_pair_ok {α β : Type} (st : St) (a : α) (f : α → St → PyRes β) :
    pyBind (st, Except.ok a) f = f a st := rfl

theorem pyBind_pair_error {α β : Type} (st : St) (e : PyErr) (f : α → St → PyRes β) :
    pyBind (st, Except.error e) f = (st, Except.error e) := rfl

theorem pyGetItem_eq (j : Json) (k : String) (st : St) :
    pyGetItem j k st = (st, j.getItem k) := rfl

theorem pyPrint_eq (s : String) (st : St) :
    pyPrint s st = ({ st with trace := st.trace ++ [.print s] }, Except.ok ()) := rfl

theorem pyCall_eq {α : Type} (eff : Effect) (r : Except PyErr α) (st : St) :
    pyCall eff r st = ({ st with trace := st.trace ++ [eff] }, r) := rfl

theorem pySessionCreate_eq (n r : Json) (st : St) :
    pySessionCreate n r st
      = ({ st with store := get_or_create_session n r st.store }, Except.ok ()) := rfl

theorem pySessionAdd_eq (n r : Json) (role content : String) (st : St) :
    pySessionAdd n r role content st
      = ({ st with
            store := add_message n r role content st.store,
            trace := st.trace ++ [.addMessage n r role content] }, Except.ok ()) := rfl

theorem pyExcept_eq {α : Type} (r : Except PyErr α) (st : St) :
    pyExcept r st = (st, r) := rfl

theorem pyPure_eq {α : Type} (a : α) (st : St) : pyPure a st = (st, Except.ok a) := rfl

theorem pyRaise_eq {α : Type} (e : PyErr) (st : St) :
    pyRaise (α := α) e st = (st, Except.error e) := rfl

theorem pyTry_eq {α : Type} (body : St → PyRes α) (handler : PyErr → St → PyRes α)
    (st : St) :
    pyTry body handler st
      = match body st with
        | (st', .ok a) => (st', .ok a)
        | (st', .error e) => handler e st' := rfl

theorem printFiles_eq (fs : List FileRec) (st : St) :
    printFiles fs st = ({ st with trace := st.trace ++ filePrints fs }, Except.ok ()) := by
  induction fs generalizing st with
  | nil => simp [printFiles, filePrints]
  | cons f rest ih =>
    simp [printFiles, filePrints, pyBind, pyPrint, ih]

theorem publishExcept_eq (e : PyErr) (st : St) :
    publishExcept e st
      = ({ st with trace := st.trace ++ publishFailPrints e }, Except.ok ()) := by
  cases e <;> simp [publishExcept, publishFailPrints, pyBind, pyPrint]

theorem appendsOf_publishFailPrints (e : PyErr) :
    appendsOf (publishFailPrints e) = [] := by
  cases e <;> simp [publishFailPrints, appendsOf]

theorem filter_external_publishFailPrints (e : PyErr) :
    (publishFailPrints e).filter isExternalCall = [] := by
  cases e <;> simp [publishFailPrints, isExternalCall, List.filter]

theorem appendsOf_nil : appendsOf [] = [] := rfl

theorem appendsOf_cons_print (s : String) (t : List Effect) :
    appendsOf (.print s :: t) = appendsOf t := rfl

theorem appendsOf_cons_addMessage (n r : Json) (role content : String) (t : List Effect) :
    appendsOf (.addMessage n r role content :: t) = (n, r, role, content) :: appendsOf t :=
  rfl

theorem appendsOf_cons_tokenExchange (j : Json) (t : List Effect) :
    appendsOf (.tokenExchange j :: t) = appendsOf t := rfl

theorem appendsOf_cons_getRepo (j : Json) (t : List Effect) :
    appendsOf (.getRepo j :: t) = appendsOf t := rfl

theorem appendsOf_cons_getPull (j : Json) (t : List Effect) :
    appendsOf (.getPull j :: t) = appendsOf t := rfl

theorem appendsOf_cons_getFiles (t : List Effect) :
    appendsOf (.getFiles :: t) = appendsOf t := rfl

theorem appendsOf_cons_analyze (j : Json) (t : List Effect) :
    appendsOf (.analyze j :: t) = appendsOf t := rfl

theorem appendsOf_cons_getCommits (t : List Effect) :
    appendsOf (.getCommits :: t) = appendsOf t := rfl

theorem appendsOf_filePrints (fs : List FileRec) : appendsOf (filePrints fs) = [] := by
  induction fs with
  | nil => rfl
  | cons f rest ih => simp [filePrints, appendsOf] at ih ⊢; exact ih

theorem filter_external_filePrints (fs : List FileRec) :
    (filePrints fs).filter isExternalCall = [] := by
  induction fs with
  | nil => rfl
  | cons f rest ih => simp [filePrints, isExternalCall, List.filter, ih]

theorem flattenFile_map (path : String) (l : List (Int × String)) :
    flattenFile (.str path) (l.map fun q => (Json.num q.1, Json.str q.2))
      = l.map fun q => Json.obj [(.str "path", .str path), (.str "line", .num q.1),
          (.str "body", .str q.2)] := by
  induction l with
  | nil => rfl
  | cons q rest ih => simp [flattenFile, ih]

theorem flattenOuter_map (m : List (String × List (Int × String))) :
    flattenOuter (m.map fun p =>
        (Json.str p.1, Json.obj (p.2.map fun q => (Json.num q.1, Json.str q.2))))
      = .ok (flatMapping m) := by
  induction m with
  | nil => rfl
  | cons p rest ih =>
    simp only [List.map_cons, flattenOuter, Json.items, ih, flatMapping, flattenFile_map]

/-- The handler's flattening loop supports exactly the mapping shape: on a
(file → line → comment) mapping it produces the per-file/per-line records. -/
theorem reviewCommentsOf_mmJson (m : List (String × List (Int × String))) :
    reviewCommentsOf (mmJson m) = .ok (flatMapping m) := by
  unfold reviewCommentsOf mmJson
  simp only [Json.items, flattenOuter_map]

theorem rolesOk_nil : RolesOk [] := by intro x hx; simp [appendsOf] at hx

theorem rolesOk_pyBind {α β : Type} {m : PyRes α} {f : α → St → PyRes β}
    (hm : RolesOk m.1.trace)
    (hf : ∀ a st, RolesOk st.trace → RolesOk ((f a st)).1.trace) :
    RolesOk (pyBind m f).1.trace := by
  rcases m with ⟨st, r⟩
  cases r with
  | ok a => exact hf a st hm
  | error e => exact hm

theorem rolesOk_state_preserving {α : Type} {c : St → PyRes α} {st : St}
    (hc : (c st).1.trace = st.trace) (h : RolesOk st.trace) :
    RolesOk (c st).1.trace := by rw [hc]; exact h

theorem rolesOk_push {st : St} (e : Effect)
    (he : ∀ n r role content, e = .addMessage n r role content →
      role = "system" ∨ role = "user" ∨ role = "assistant")
    (h : RolesOk st.trace) : RolesOk (st.trace ++ [e]) := by
  intro x hx
  rw [appendsOf_append] at hx
  rcases List.mem_append.mp hx with hx | hx
  · exact h x hx
  · cases e with
    | addMessage n r role content =>
      simp [appendsOf] at hx
      subst hx
      exact he n r role content rfl
    | _ => simp [appendsOf] at hx

theorem rolesOk_pyPrint {st : St} (s : String) (h : RolesOk st.trace) :
    RolesOk (pyPrint s st).1.trace :=
  rolesOk_push _ (fun _ _ _ _ hh => by cases hh) h

theorem rolesOk_pyCall {α : Type} {st : St} (eff : Effect) (r : Except PyErr α)
    (he : ∀ n rr role content, eff = .addMessage n rr role content →
      role = "system" ∨ role = "user" ∨ role = "assistant")
    (h : RolesOk st.trace) : RolesOk (pyCall eff r st).1.trace :=
  rolesOk_push _ he h

theorem rolesOk_pySessionAdd {st : St} (n r : Json) (role content : String)
    (hrole : role = "system" ∨ role = "user" ∨ role = "assistant")
    (h : RolesOk st.trace) : RolesOk (pySessionAdd n r role content st).1.trace :=
  rolesOk_push _ (fun _ _ _ _ hh => by cases hh; exact hrole) h

theorem rolesOk_pyTry {α : Type} {body : St → PyRes α}
    {handler : PyErr → St → PyRes α} {st : St}
    (hb : RolesOk st.trace → RolesOk (body st).1.trace)
    (hh : ∀ e st', RolesOk st'.trace → RolesOk (handler e st').1.trace)
    (h : RolesOk st.trace) : RolesOk (pyTry body handler st).1.trace := by
  unfold pyTry
  rcases hr : body st with ⟨st', r⟩
  cases r with
  | ok a => have := hb h; rw [hr] at this; exact this
  | error e =>
    have hb' := hb h
    rw [hr] at hb'
    exact hh e st' hb'

theorem rolesOk_printFiles (fs : List FileRec) (st : St) (h : RolesOk st.trace) :
    RolesOk (printFiles fs st).1.trace := by
  induction fs generalizing st with
  | nil => exact h
  | cons f rest ih =>
    apply rolesOk_pyBind (rolesOk_pyPrint _ h)
    intro a st1 h1
    apply rolesOk_pyBind (rolesOk_pyPrint _ h1)
    intro a2 st2 h2
    apply rolesOk_pyBind (rolesOk_pyPrint _ h2)
    intro a3 st3 h3
    exact ih st3 h3

theorem rolesOk_publishExcept (e : PyErr) (st : St) (h : RolesOk st.trace) :
    RolesOk (publishExcept e st).1.trace := by
  cases e <;> simp only [publishExcept] <;>
    first
    | exact rolesOk_pyPrint _ h
    | exact rolesOk_pyBind (rolesOk_pyPrint _ h) (fun a st1 h1 => rolesOk_pyPrint _ h1)

theorem pyBind_snd_const_ok {α β : Type} (m : PyRes α) (b : β) (v : β)
    (h : (pyBind m fun _ st => pyPure b st).2 = Except.ok v) : v = b := by
  rcases m with ⟨st1, r1⟩
  cases r1 with
  | ok a => simp [pyBind, pyPure] at h; exact h.symm
  | error e => simp [pyBind] at h

/-- The view function returns normally only with the fixed acknowledgment
value `('Webhook received', 200)`. -/
theorem webhook_ok_value (env : Env) (event : Option String) (payload : Json)
    (st0 : St) (v : String × Nat)
    (h : (webhook env event payload st0).2 = Except.ok v) :
    v = ("Webhook received", 200) := by
  unfold webhook at h
  by_cases hsig : env.verifySig
  · simp only [pyPrint_eq, pyBind_pair_ok, hsig, if_true] at h
    exact pyBind_snd_const_ok _ _ _ h
  · simp only [pyPrint_eq, pyBind_pair_ok, hsig, if_false, pyRaise_eq] at h
    exact absurd h (by simp)

/-! ## The claims -/

set_option maxHeartbeats 2000000

/-- C8: the claim asserts that for the analysis result
`{"a.py": {12: "missing null check"}}` the publisher posts exactly one comment
on a.py line 12 to the platform.  It does not: the posting calls
(`create_review` / `create_review_comment`, `main.py` lines 105–118) are
commented out, so the run performs zero platform posting calls, not one. -/
theorem c8_counterexample :
    postCount (webhook_endpoint envOk (some "pull_request") prOpenedPayload []).1.trace ≠ 1
    ∧ postCount (webhook_endpoint envOk (some "pull_request") prOpenedPayload []).1.trace
        = 0 := by
  have h : postCount (webhook_endpoint envOk (some "pull_request") prOpenedPayload
      []).1.trace = 0 := by rfl
  exact ⟨by rw [h]; decide, h⟩

/-- C8 (amended): for the analysis result `{"a.py": {12: "missing null check"}}`
the handler builds exactly one review-comment record for a.py line 12 with that
text and logs it, but makes no platform posting call (the posting code is
commented out); the session receives exactly one assistant message containing
the serialized mapping `{"a.py": {"12": "missing null check"}}`. -/
theorem c8_amended_record_built_but_not_posted :
    reviewCommentsOf scenarioMapping
      = .ok [Json.obj [(.str "path", .str "a.py"), (.str "line", .num 12),
              (.str "body", .str "missing null check")]]
    ∧ postCount (webhook_endpoint envOk (some "pull_request") prOpenedPayload []).1.trace = 0
    ∧ appendsOf (webhook_endpoint envOk (some "pull_request") prOpenedPayload []).1.trace
      = [(.num 42, .str "acme/widgets", "system", "Pull Request #42 opened: Fix bug"),
         (.num 42, .str "acme/widgets", "user", "Description: Fixes #1"),
         (.num 42, .str "acme/widgets", "assistant", Json.dumps scenarioMapping)]
    ∧ Json.dumps scenarioMapping = "\x7b\"a.py\": \x7b\"12\": \"missing null check\"\x7d\x7d"
    ∧ Effect.print "Posted review with 1 comments"
        ∈ (webhook_endpoint envOk (some "pull_request") prOpenedPayload []).1.trace
    ∧ (webhook_endpoint envOk (some "pull_request") prOpenedPayload []).2
        = .ok "Webhook received" 200 := by
  refine ⟨?_, ?_, ?_, ?_, ?_, ?_⟩
  · rfl
  · rfl
  · rfl
  · decide
  · decide
  · rfl

/-- C6: the claim asserts the handler also supports an aggregate plain-string
analysis result.  It does not: on the string result "Looks good" the
flattening loop calls `.items()` on the string (`main.py` line 95), which
raises `AttributeError`, aborts the handler and escapes the endpoint — the run
does not process it without failing. -/
theorem c6_counterexample :
    (webhook_endpoint (envAgg "Looks good") (some "pull_request") prOpenedPayload []).2
      = .serverError (.attributeError "'str' object has no attribute 'items'")
    ∧ (webhook_endpoint (envAgg "Looks good") (some "pull_request") prOpenedPayload []).2
      ≠ .ok "Webhook received" 200 := by
  have h : (webhook_endpoint (envAgg "Looks good") (some "pull_request") prOpenedPayload
        []).2
      = HttpResponse.serverError (.attributeError "'str' object has no attribute 'items'") :=
    rfl
  exact ⟨h, by rw [h]; exact fun hh => HttpResponse.noConfusion hh⟩

/-- C6 (amended): only the mapping shape is supported.  A mapping from file
path to (line → comment) mappings is flattened into the per-file/per-line
review-comment records, but a plain aggregate string `s` makes the
`.items()` call raise `AttributeError`, which aborts the handler (no session
update of step 7, no publish attempt) and escapes the webhook endpoint. -/
theorem c6_amended_only_mapping_shape_supported (s : String)
    (m : List (String × List (Int × String))) :
    reviewCommentsOf (mmJson m) = .ok (flatMapping m)
    ∧ reviewCommentsOf (.str s)
        = .error (.attributeError "'str' object has no attribute 'items'")
    ∧ (webhook_endpoint (envAgg s) (some "pull_request") prOpenedPayload []).2
        = .serverError (.attributeError "'str' object has no attribute 'items'") := by
  refine ⟨reviewCommentsOf_mmJson m, rfl, ?_⟩
  simp only [webhook_endpoint, webhook, dispatchEvent, handle_pull_request, pyGetItem_eq, pyPrint_eq,
    pyCall_eq, pySessionCreate_eq, pySessionAdd_eq, pyExcept_eq, pyPure_eq, pyTry_eq,
    printFiles_eq, prOpenedPayload, prPayloadWith]
  simp [envAgg, envOk, Json.getItem, Json.lookupStr, pyBind_pair_ok, pyBind_pair_error,
    reviewCommentsOf, Json.items, scenarioFiles, Json.typeName, toResponse]

/-- C10: no handler filters on the event's action string.  For an arbitrary
action value `a` the pull-request handler still performs the entire external
pipeline (credential exchange, repo/pull lookup, diff fetch, analysis, commit
fetch) and appends its three session messages, with `a` appearing only inside
message text; and the review and comment handlers append their single user
message — whose content does not mention the action at all — for every `a`. -/
theorem c10_handlers_do_not_filter_on_action (a : Json) :
    (handle_pull_request envOk (prPayloadWith a) ⟨[], []⟩).1.trace.filter isExternalCall
      = [.tokenExchange (.num 7), .getRepo (.str "acme/widgets"), .getPull (.num 42),
         .getFiles, .analyze (buildPrData (.str "Fix bug") (.str "Fixes #1") scenarioFiles),
         .getCommits]
    ∧ appendsOf (handle_pull_request envOk (prPayloadWith a) ⟨[], []⟩).1.trace
      = [(.num 42, .str "acme/widgets", "system",
            "Pull Request #" ++ (Json.num 42).pyStr ++ " " ++ a.pyStr ++ ": "
              ++ (Json.str "Fix bug").pyStr),
         (.num 42, .str "acme/widgets", "user", "Description: Fixes #1"),
         (.num 42, .str "acme/widgets", "assistant", Json.dumps scenarioMapping)]
    ∧ appendsOf (handle_pull_request_review envOk (reviewPayloadWith a) ⟨[], []⟩).1.trace
      = [(.num 42, .str "acme/widgets", "user", "Review by alice: approved\nComment: LGTM")]
    ∧ appendsOf (handle_issue_comment envOk (commentPayloadWith a true) ⟨[], []⟩).1.trace
      = [(.num 42, .str "acme/widgets", "user", "Comment by bob: ship it")] := by
  refine ⟨?_, ?_, ?_, ?_⟩
  · simp only [handle_pull_request, pyGetItem_eq, pyPrint_eq, pyCall_eq, pySessionCreate_eq,
      pySessionAdd_eq, pyExcept_eq, pyPure_eq, pyTry_eq, printFiles_eq, prPayloadWith,
      Json.getItem, Json.lookupStr]
    simp only [envOk]
    simp [pyBind_pair_ok, pyBind_pair_error, reviewCommentsOf_mmJson, reviewCommentsOf,
      Json.items, flattenOuter, flattenFile, scenarioMapping, mmJson, filePrints,
      scenarioFiles, isExternalCall, List.filter]
  · simp only [handle_pull_request, pyGetItem_eq, pyPrint_eq, pyCall_eq, pySessionCreate_eq,
      pySessionAdd_eq, pyExcept_eq, pyPure_eq, pyTry_eq, printFiles_eq, prPayloadWith]
    simp [envOk, Json.getItem, Json.lookupStr, pyBind_pair_ok, pyBind_pair_error,
      reviewCommentsOf_mmJson, reviewCommentsOf, Json.items, flattenOuter, flattenFile,
      scenarioMapping, mmJson, filePrints, scenarioFiles, appendsOf, Json.pyStr,
      Json.pyRepr]
  · simp only [handle_pull_request_review, pyGetItem_eq, pyPrint_eq, pySessionCreate_eq,
      pySessionAdd_eq, pyPure_eq, reviewPayloadWith]
    simp [Json.getItem, Json.lookupStr, pyBind_pair_ok, pyBind_pair_error, appendsOf,
      Json.pyStr, Json.pyRepr]
  · simp only [handle_issue_comment, pyGetItem_eq, pyPrint_eq, pySessionCreate_eq,
      pySessionAdd_eq, pyPure_eq, pyExcept_eq, commentPayloadWith]
    simp [Json.getItem, Json.lookupStr, Json.pyContains, pyBind_pair_ok, pyBind_pair_error,
      appendsOf, Json.pyStr, Json.pyRepr]

/-- C3: once the signature check passes, an event whose type string is none of
pull_request / pull_request_review / issue_comment falls through the dispatch:
no handler runs, the session store is returned unchanged, the trace holds only
the two log prints (no handler effect, no append, no external call), no
exception is raised, and the response is the 200 acknowledgment. -/
theorem c3_unknown_event_ignored (env : Env) (payload : Json) (store : Store)
    (event : Option String)
    (h1 : event ≠ some "pull_request") (h2 : event ≠ some "pull_request_review")
    (h3 : event ≠ some "issue_comment") :
    webhook_endpoint { env with verifySig := true } event payload store
      = ({ store := store,
           trace := [.print "Webhook received",
                     .print ("Received event: " ++ optHeaderStr event)] },
         .ok "Webhook received" 200) := by
  simp [webhook_endpoint, webhook, dispatchEvent, pyBind, pyPrint, pyPure, h1, h2, h3, toResponse]

theorem c3_witness :
    (some "push" ≠ some "pull_request")
    ∧ (some "push" ≠ some "pull_request_review")
    ∧ (some "push" ≠ some "issue_comment")
    ∧ webhook_endpoint { envOk with verifySig := true } (some "push") prOpenedPayload []
      = ({ store := [],
           trace := [.print "Webhook received",
                     .print ("Received event: " ++ optHeaderStr (some "push"))] },
         .ok "Webhook received" 200) :=
  ⟨by decide, by decide, by decide,
    c3_unknown_event_ignored envOk prOpenedPayload [] (some "push")
      (by decide) (by decide) (by decide)⟩

/-- C4: an issue_comment event whose issue object has no "pull_request" key
fails the `if "pull_request" in issue` guard, so the comment handler performs
no session lookup or creation and appends no message: the store comes back
unchanged and the handler's trace records no effect at all. -/
theorem c4_non_pr_issue_comment_no_mutation (env : Env) (payload : Json) (store : Store)
    (fs : List (Json × Json))
    (hIssue : payload.getItem "issue" = Except.ok (Json.obj fs))
    (hNoPr : Json.lookupStr fs "pull_request" = none) :
    (handle_issue_comment env payload ⟨store, []⟩).1.store = store
    ∧ appendsOf (handle_issue_comment env payload ⟨store, []⟩).1.trace = [] := by
  have h : (handle_issue_comment env payload ⟨store, []⟩).1 = ⟨store, []⟩ := by
    simp only [handle_issue_comment, pyGetItem_eq, pyExcept_eq]
    cases h1 : payload.getItem "action" with
    | error e => simp [pyBind_pair_error]
    | ok av =>
      simp only [pyBind_pair_ok]
      cases h2 : payload.getItem "comment" with
      | error e => simp [pyBind_pair_error]
      | ok cv =>
        simp only [pyBind_pair_ok]
        rw [hIssue]
        simp only [pyBind_pair_ok, Json.pyContains, hNoPr]
        cases h3 : payload.getItem "repository" with
        | error e => simp [pyBind_pair_error]
        | ok rv =>
          simp [pyBind_pair_ok, pyPure]
  exact ⟨by rw [h], by rw [h]; rfl⟩

theorem c4_witness :
    ((commentPayloadWith (.str "created") false).getItem "issue"
        = Except.ok (Json.obj [(Json.str "number", Json.num 42)]))
    ∧ (Json.lookupStr [(Json.str "number", Json.num 42)] "pull_request" = none)
    ∧ (handle_issue_comment envOk (commentPayloadWith (.str "created") false)
          ⟨[], []⟩).1.store = []
    ∧ appendsOf (handle_issue_comment envOk (commentPayloadWith (.str "created") false)
          ⟨[], []⟩).1.trace = [] := by
  refine ⟨rfl, rfl, ?_, ?_⟩
  · exact (c4_non_pr_issue_comment_no_mutation envOk
      (commentPayloadWith (.str "created") false) []
      [(Json.str "number", Json.num 42)] rfl rfl).1
  · exact (c4_non_pr_issue_comment_no_mutation envOk
      (commentPayloadWith (.str "created") false) []
      [(Json.str "number", Json.num 42)] rfl rfl).2

/-- C7: whatever exception `e` the publish step raises (`GithubException` or
any other), it is caught by the handler's except-branches and only logged: the
handler continues, appends exactly one assistant message containing the JSON
serialization of the analysis mapping as its final step, and the webhook
delivery still gets the 200 acknowledgment. -/
theorem c7_publish_failure_contained (m : List (String × List (Int × String)))
    (e : PyErr) (store : Store) :
    (webhook_endpoint (envPublishFail m e) (some "pull_request")
        prOpenedPayload store).2 = .ok "Webhook received" 200
    ∧ appendsOf (webhook_endpoint (envPublishFail m e) (some "pull_request")
          prOpenedPayload store).1.trace
      = [(.num 42, .str "acme/widgets", "system", "Pull Request #42 opened: Fix bug"),
         (.num 42, .str "acme/widgets", "user", "Description: Fixes #1"),
         (.num 42, .str "acme/widgets", "assistant", Json.dumps (mmJson m))] := by
  refine ⟨?_, ?_⟩ <;>
  · simp only [webhook_endpoint, webhook, dispatchEvent, handle_pull_request, pyGetItem_eq, pyPrint_eq,
      pyCall_eq, pySessionCreate_eq, pySessionAdd_eq, pyExcept_eq, pyPure_eq, pyTry_eq,
      printFiles_eq, publishExcept_eq, prOpenedPayload, prPayloadWith]
    simp [envPublishFail, envOk, Json.getItem, Json.lookupStr, pyBind_pair_ok,
      pyBind_pair_error, reviewCommentsOf_mmJson, filePrints, scenarioFiles,
      appendsOf_append, appendsOf_nil, appendsOf_cons_print, appendsOf_cons_addMessage,
      appendsOf_cons_tokenExchange, appendsOf_cons_getRepo, appendsOf_cons_getPull,
      appendsOf_cons_getFiles, appendsOf_cons_analyze, appendsOf_cons_getCommits,
      appendsOf_publishFailPrints, Json.pyStr, Json.pyRepr, toResponse,
      show toString (42 : Int) = "42" from rfl]

/-- C5: the claim asserts that when the credential exchange or diff fetch
raises, the webhook endpoint still responds 200.  It does not: with the token
exchange raising a timeout, no analysis and no publish call occurs and the
session keeps the two step-1 messages, but the exception escapes the handler
and the endpoint uncaught, so the response is a server error, not the 200
acknowledgment. -/
theorem c5_counterexample :
    transcript (webhook_endpoint (envTokenFail (.exc "timeout")) (some "pull_request")
        prOpenedPayload []).1.store (.num 42) (.str "acme/widgets")
      = [("system", "Pull Request #42 opened: Fix bug"), ("user", "Description: Fixes #1")]
    ∧ analyzeCount (webhook_endpoint (envTokenFail (.exc "timeout")) (some "pull_request")
        prOpenedPayload []).1.trace = 0
    ∧ postCount (webhook_endpoint (envTokenFail (.exc "timeout")) (some "pull_request")
        prOpenedPayload []).1.trace = 0
    ∧ (webhook_endpoint (envTokenFail (.exc "timeout")) (some "pull_request")
        prOpenedPayload []).2 = .serverError (.exc "timeout")
    ∧ (webhook_endpoint (envTokenFail (.exc "timeout")) (some "pull_request")
        prOpenedPayload []).2 ≠ .ok "Webhook received" 200 := by
  have h : (webhook_endpoint (envTokenFail (.exc "timeout")) (some "pull_request")
      prOpenedPayload []).2 = HttpResponse.serverError (.exc "timeout") := rfl
  refine ⟨rfl, rfl, rfl, h, ?_⟩
  rw [h]
  exact fun hh => HttpResponse.noConfusion hh

/-- C5 (amended): for any exception `e` raised by the credential exchange or
by the diff fetch and any prior store contents, no analysis call and no
publish call occurs, the step-1 session update survives (the transcript for
the key grows by exactly the system and user message, with no rollback), but
the exception escapes the endpoint, so the response is never the 200
acknowledgment. -/
theorem c5_amended_abort_keeps_session_but_response_not_200 (e : PyErr) (store : Store) :
    (analyzeCount (webhook_endpoint (envTokenFail e) (some "pull_request")
          prOpenedPayload store).1.trace = 0
      ∧ postCount (webhook_endpoint (envTokenFail e) (some "pull_request")
          prOpenedPayload store).1.trace = 0
      ∧ transcript (webhook_endpoint (envTokenFail e) (some "pull_request")
            prOpenedPayload store).1.store (.num 42) (.str "acme/widgets")
        = transcript store (.num 42) (.str "acme/widgets")
            ++ [("system", "Pull Request #42 opened: Fix bug"),
                ("user", "Description: Fixes #1")]
      ∧ (webhook_endpoint (envTokenFail e) (some "pull_request")
          prOpenedPayload store).2 ≠ .ok "Webhook received" 200)
    ∧ (analyzeCount (webhook_endpoint (envFilesFail e) (some "pull_request")
          prOpenedPayload store).1.trace = 0
      ∧ postCount (webhook_endpoint (envFilesFail e) (some "pull_request")
          prOpenedPayload store).1.trace = 0
      ∧ transcript (webhook_endpoint (envFilesFail e) (some "pull_request")
            prOpenedPayload store).1.store (.num 42) (.str "acme/widgets")
        = transcript store (.num 42) (.str "acme/widgets")
            ++ [("system", "Pull Request #42 opened: Fix bug"),
                ("user", "Description: Fixes #1")]
      ∧ (webhook_endpoint (envFilesFail e) (some "pull_request")
          prOpenedPayload store).2 ≠ .ok "Webhook received" 200) := by
  refine ⟨⟨?_, ?_, ?_, ?_⟩, ⟨?_, ?_, ?_, ?_⟩⟩ <;>
  · try cases e
    all_goals
      simp only [webhook_endpoint, webhook, dispatchEvent, handle_pull_request, pyGetItem_eq,
        pyPrint_eq, pyCall_eq, pySessionCreate_eq, pySessionAdd_eq, pyExcept_eq,
        pyPure_eq, pyTry_eq, printFiles_eq, prOpenedPayload, prPayloadWith]
    all_goals
      simp [envTokenFail, envFilesFail, envOk, Json.getItem, Json.lookupStr,
        pyBind_pair_ok, pyBind_pair_error, analyzeCount, postCount, List.filter,
        toResponse, Json.pyStr, Json.pyRepr, show toString (42 : Int) = "42" from rfl,
        transcript_two_appends]

/-- C1: the claim asserts the endpoint returns 200 even when the handler
invocation fails.  It does not: with signature verification passing, a
pull_request payload with no "action" key raises `KeyError('action')` inside
the handler, the endpoint has no exception guard, and the delivery gets an
uncaught server error instead of the 200 acknowledgment. -/
theorem c1_counterexample :
    (webhook_endpoint envOk (some "pull_request") (Json.obj []) []).2
      = .serverError (.keyError "action")
    ∧ (webhook_endpoint envOk (some "pull_request") (Json.obj []) []).2
      ≠ .ok "Webhook received" 200 := by
  have h : (webhook_endpoint envOk (some "pull_request") (Json.obj []) []).2
      = HttpResponse.serverError (.keyError "action") := rfl
  exact ⟨h, by rw [h]; exact fun hh => HttpResponse.noConfusion hh⟩

/-- C1 (amended): once signature verification passes, the endpoint returns the
200 acknowledgment exactly when the dispatched handler raises no exception;
a handler failure is not contained — in particular a pull_request payload
missing the "action" key makes the delivery end in an uncaught
`KeyError('action')` server error rather than a 200. -/
theorem c1_amended_200_iff_handler_raises_nothing (env : Env) (event : Option String)
    (payload : Json) (store : Store) :
    ((webhook_endpoint { env with verifySig := true } event payload store).2
        = HttpResponse.ok "Webhook received" 200
      ↔ ∃ v, (webhook { env with verifySig := true } event payload
            { store := store, trace := [] }).2 = Except.ok v)
    ∧ (webhook_endpoint { env with verifySig := true } (some "pull_request")
          (Json.obj []) store).2 = .serverError (.keyError "action") := by
  constructor
  · unfold webhook_endpoint
    cases hw : (webhook { env with verifySig := true } event payload
        { store := store, trace := [] }).2 with
    | ok v =>
      have hv := webhook_ok_value _ _ _ _ _ hw
      subst hv
      simp [toResponse]
    | error e =>
      cases e <;> simp [toResponse]
  · simp only [webhook_endpoint, webhook, dispatchEvent, handle_pull_request,
      pyGetItem_eq, pyPrint_eq, pyBind_pair_ok, pyBind_pair_error]
    simp [Json.getItem, Json.lookupStr, pyBind_pair_ok, pyBind_pair_error, toResponse]

/-- C2: for the PR #42 "opened" payload the handler resolves the session keyed
by (42, "acme/widgets") and its session-update step appends exactly two
messages in order — the system message "Pull Request #42 opened: Fix bug"
followed by the user message "Description: Fixes #1".  Whatever the
collaborators do, these two are the first messages appended (any later append
comes only from the step-7 assistant record), and when the pipeline aborts
right after step 1 (here: at the credential exchange) they are exactly the
session's transcript. -/
theorem c2_pr_opened_appends_two_messages (env : Env) (e : PyErr) :
    (appendsOf (handle_pull_request env prOpenedPayload ⟨[], []⟩).1.trace).take 2
      = [(.num 42, .str "acme/widgets", "system", "Pull Request #42 opened: Fix bug"),
         (.num 42, .str "acme/widgets", "user", "Description: Fixes #1")]
    ∧ appendsOf (handle_pull_request (envTokenFail e) prOpenedPayload ⟨[], []⟩).1.trace
      = [(.num 42, .str "acme/widgets", "system", "Pull Request #42 opened: Fix bug"),
         (.num 42, .str "acme/widgets", "user", "Description: Fixes #1")]
    ∧ transcript (handle_pull_request (envTokenFail e) prOpenedPayload ⟨[], []⟩).1.store
        (.num 42) (.str "acme/widgets")
      = [("system", "Pull Request #42 opened: Fix bug"),
         ("user", "Description: Fixes #1")] := by
  refine ⟨?_, ?_, ?_⟩
  · simp only [handle_pull_request, pyGetItem_eq, pyPrint_eq, pyCall_eq, pySessionCreate_eq,
      pySessionAdd_eq, pyExcept_eq, pyPure_eq, pyTry_eq, printFiles_eq, publishExcept_eq,
      prOpenedPayload, prPayloadWith]
    simp [Json.getItem, Json.lookupStr, pyBind_pair_ok, pyBind_pair_error, Json.pyStr,
      Json.pyRepr, show toString (42 : Int) = "42" from rfl]
    cases h1 : env.tokenExchange (Json.num 7) with
    | error e1 => simp [h1, pyBind_pair_ok, pyBind_pair_error, appendsOf_append, appendsOf_nil,
        appendsOf_cons_print, appendsOf_cons_addMessage, appendsOf_cons_tokenExchange,
        appendsOf_cons_getRepo, appendsOf_cons_getPull, appendsOf_cons_getFiles,
        appendsOf_cons_analyze, appendsOf_cons_getCommits, appendsOf_filePrints,
        appendsOf_publishFailPrints]
    | ok v1 =>
      simp only [h1, pyBind_pair_ok]
      cases h2 : env.getRepo (Json.str "acme/widgets") with
      | error e2 => simp [h2, pyBind_pair_ok, pyBind_pair_error, appendsOf_append, appendsOf_nil,
        appendsOf_cons_print, appendsOf_cons_addMessage, appendsOf_cons_tokenExchange,
        appendsOf_cons_getRepo, appendsOf_cons_getPull, appendsOf_cons_getFiles,
        appendsOf_cons_analyze, appendsOf_cons_getCommits, appendsOf_filePrints,
        appendsOf_publishFailPrints]
      | ok v2 =>
        simp only [h2, pyBind_pair_ok]
        cases h3 : env.getPull (Json.num 42) with
        | error e3 => simp [h3, pyBind_pair_ok, pyBind_pair_error, appendsOf_append, appendsOf_nil,
        appendsOf_cons_print, appendsOf_cons_addMessage, appendsOf_cons_tokenExchange,
        appendsOf_cons_getRepo, appendsOf_cons_getPull, appendsOf_cons_getFiles,
        appendsOf_cons_analyze, appendsOf_cons_getCommits, appendsOf_filePrints,
        appendsOf_publishFailPrints]
        | ok v3 =>
          simp only [h3, pyBind_pair_ok]
          cases h4 : env.getFiles with
          | error e4 => simp [h4, pyBind_pair_ok, pyBind_pair_error, appendsOf_append, appendsOf_nil,
        appendsOf_cons_print, appendsOf_cons_addMessage, appendsOf_cons_tokenExchange,
        appendsOf_cons_getRepo, appendsOf_cons_getPull, appendsOf_cons_getFiles,
        appendsOf_cons_analyze, appendsOf_cons_getCommits, appendsOf_filePrints,
        appendsOf_publishFailPrints]
          | ok fs =>
            simp only [h4, pyBind_pair_ok]
            cases h5 : env.analyzePr (buildPrData (.str "Fix bug") (.str "Fixes #1") fs) with
            | error e5 => simp [h5, pyBind_pair_ok, pyBind_pair_error, appendsOf_append, appendsOf_nil,
        appendsOf_cons_print, appendsOf_cons_addMessage, appendsOf_cons_tokenExchange,
        appendsOf_cons_getRepo, appendsOf_cons_getPull, appendsOf_cons_getFiles,
        appendsOf_cons_analyze, appendsOf_cons_getCommits, appendsOf_filePrints,
        appendsOf_publishFailPrints]
            | ok fc =>
              simp only [h5, pyBind_pair_ok]
              cases h6 : reviewCommentsOf fc with
              | error e6 => simp [h6, pyBind_pair_ok, pyBind_pair_error, appendsOf_append, appendsOf_nil,
        appendsOf_cons_print, appendsOf_cons_addMessage, appendsOf_cons_tokenExchange,
        appendsOf_cons_getRepo, appendsOf_cons_getPull, appendsOf_cons_getFiles,
        appendsOf_cons_analyze, appendsOf_cons_getCommits, appendsOf_filePrints,
        appendsOf_publishFailPrints]
              | ok rc =>
                simp only [h6, pyBind_pair_ok]
                cases h7 : env.getCommits with
                | error e7 => simp [h7, pyBind_pair_ok, pyBind_pair_error, appendsOf_append, appendsOf_nil,
        appendsOf_cons_print, appendsOf_cons_addMessage, appendsOf_cons_tokenExchange,
        appendsOf_cons_getRepo, appendsOf_cons_getPull, appendsOf_cons_getFiles,
        appendsOf_cons_analyze, appendsOf_cons_getCommits, appendsOf_filePrints,
        appendsOf_publishFailPrints]
                | ok commits =>
                  simp only [h7, pyBind_pair_ok]
                  cases h8 : commits.getLast? with
                  | none => simp [h8, pyBind_pair_ok, pyBind_pair_error, appendsOf_append, appendsOf_nil,
        appendsOf_cons_print, appendsOf_cons_addMessage, appendsOf_cons_tokenExchange,
        appendsOf_cons_getRepo, appendsOf_cons_getPull, appendsOf_cons_getFiles,
        appendsOf_cons_analyze, appendsOf_cons_getCommits, appendsOf_filePrints,
        appendsOf_publishFailPrints]
                  | some c => simp [h8, pyBind_pair_ok, pyBind_pair_error, appendsOf_append, appendsOf_nil,
        appendsOf_cons_print, appendsOf_cons_addMessage, appendsOf_cons_tokenExchange,
        appendsOf_cons_getRepo, appendsOf_cons_getPull, appendsOf_cons_getFiles,
        appendsOf_cons_analyze, appendsOf_cons_getCommits, appendsOf_filePrints,
        appendsOf_publishFailPrints]
  · simp only [handle_pull_request, pyGetItem_eq, pyPrint_eq, pyCall_eq, pySessionCreate_eq,
      pySessionAdd_eq, pyExcept_eq, pyPure_eq, pyTry_eq, printFiles_eq, publishExcept_eq,
      prOpenedPayload, prPayloadWith]
    simp [envTokenFail, envOk, Json.getItem, Json.lookupStr, pyBind_pair_ok,
      pyBind_pair_error, appendsOf_append, appendsOf_nil, appendsOf_cons_print,
      appendsOf_cons_addMessage, appendsOf_cons_tokenExchange, appendsOf_cons_getRepo,
      appendsOf_cons_getPull, appendsOf_cons_getFiles, appendsOf_cons_analyze,
      appendsOf_cons_getCommits, Json.pyStr, Json.pyRepr,
      show toString (42 : Int) = "42" from rfl]
  · simp only [handle_pull_request, pyGetItem_eq, pyPrint_eq, pyCall_eq, pySessionCreate_eq,
      pySessionAdd_eq, pyExcept_eq, pyPure_eq, pyTry_eq, printFiles_eq, publishExcept_eq,
      prOpenedPayload, prPayloadWith]
    simp [envTokenFail, envOk, Json.getItem, Json.lookupStr, pyBind_pair_ok,
      pyBind_pair_error, transcript_two_appends, transcript, Json.pyStr, Json.pyRepr,
      show toString (42 : Int) = "42" from rfl]

/-- C9: whatever the payload, environment and prior store, every message any
of the three event handlers appends carries a role from the enumerated set
{system, user, assistant}: the pull-request handler only ever passes "system",
"user" and "assistant" to add_message, and the review and comment handlers
only "user". -/
theorem c9_roles_restricted_to_enumerated_set (env : Env) (payload : Json)
    (store : Store) :
    RolesOk (handle_pull_request env payload ⟨store, []⟩).1.trace
    ∧ RolesOk (handle_pull_request_review env payload ⟨store, []⟩).1.trace
    ∧ RolesOk (handle_issue_comment env payload ⟨store, []⟩).1.trace := by
  refine ⟨?_, ?_, ?_⟩
  · unfold handle_pull_request
    refine rolesOk_pyBind rolesOk_nil ?_
    intro action st h
    refine rolesOk_pyBind h ?_
    intro pr st h
    refine rolesOk_pyBind h ?_
    intro repo st h
    refine rolesOk_pyBind h ?_
    intro installation st h
    refine rolesOk_pyBind h ?_
    intro installationId st h
    refine rolesOk_pyBind h ?_
    intro prNumber st h
    refine rolesOk_pyBind h ?_
    intro repoFullName st h
    refine rolesOk_pyBind h ?_
    intro u1 st h
    refine rolesOk_pyBind h ?_
    intro title st h
    refine rolesOk_pyBind (rolesOk_pySessionAdd _ _ _ _ (Or.inl rfl) h) ?_
    intro u2 st h
    refine rolesOk_pyBind h ?_
    intro body st h
    refine rolesOk_pyBind (rolesOk_pySessionAdd _ _ _ _ (Or.inr (Or.inl rfl)) h) ?_
    intro u3 st h
    refine rolesOk_pyBind (rolesOk_pyPrint _ h) ?_
    intro u4 st h
    refine rolesOk_pyBind (rolesOk_pyPrint _ h) ?_
    intro u5 st h
    refine rolesOk_pyBind h ?_
    intro user st h
    refine rolesOk_pyBind h ?_
    intro login st h
    refine rolesOk_pyBind (rolesOk_pyPrint _ h) ?_
    intro u6 st h
    refine rolesOk_pyBind (rolesOk_pyPrint _ h) ?_
    intro u7 st h
    refine rolesOk_pyBind (rolesOk_pyCall _ _ (fun _ _ _ _ hh => nomatch hh) h) ?_
    intro accessToken st h
    refine rolesOk_pyBind (rolesOk_pyCall _ _ (fun _ _ _ _ hh => nomatch hh) h) ?_
    intro u8 st h
    refine rolesOk_pyBind (rolesOk_pyCall _ _ (fun _ _ _ _ hh => nomatch hh) h) ?_
    intro u9 st h
    refine rolesOk_pyBind (rolesOk_pyCall _ _ (fun _ _ _ _ hh => nomatch hh) h) ?_
    intro diffFiles st h
    refine rolesOk_pyBind (rolesOk_pyPrint _ h) ?_
    intro u10 st h
    refine rolesOk_pyBind (rolesOk_printFiles _ _ h) ?_
    intro u11 st h
    refine rolesOk_pyBind (rolesOk_pyCall _ _ (fun _ _ _ _ hh => nomatch hh) h) ?_
    intro fileComments st h
    refine rolesOk_pyBind h ?_
    intro reviewComments st h
    refine rolesOk_pyBind
      (rolesOk_pyTry
        (fun hb => rolesOk_pyBind
          (rolesOk_pyCall _ _ (fun _ _ _ _ hh => nomatch hh) hb)
          (fun commits st' h' => rolesOk_pyBind h'
            (fun latest st'' h'' => rolesOk_pyPrint _ h'')))
        (fun e' st' h' => rolesOk_publishExcept e' st' h')
        h) ?_
    intro u12 st h
    refine rolesOk_pyBind (rolesOk_pyPrint _ h) ?_
    intro u13 st h
    exact rolesOk_pySessionAdd _ _ _ _ (Or.inr (Or.inr rfl)) h
  · unfold handle_pull_request_review
    refine rolesOk_pyBind rolesOk_nil ?_
    intro action st h
    refine rolesOk_pyBind h ?_
    intro review st h
    refine rolesOk_pyBind h ?_
    intro pr st h
    refine rolesOk_pyBind h ?_
    intro repo st h
    refine rolesOk_pyBind h ?_
    intro prNumber st h
    refine rolesOk_pyBind h ?_
    intro repoFullName st h
    refine rolesOk_pyBind h ?_
    intro u1 st h
    refine rolesOk_pyBind h ?_
    intro ruser st h
    refine rolesOk_pyBind h ?_
    intro rlogin st h
    refine rolesOk_pyBind h ?_
    intro rstate st h
    refine rolesOk_pyBind h ?_
    intro rbody st h
    refine rolesOk_pyBind (rolesOk_pySessionAdd _ _ _ _ (Or.inr (Or.inl rfl)) h) ?_
    intro u2 st h
    refine rolesOk_pyBind (rolesOk_pyPrint _ h) ?_
    intro u3 st h
    refine rolesOk_pyBind (rolesOk_pyPrint _ h) ?_
    intro u4 st h
    exact rolesOk_pyPrint _ h
  · unfold handle_issue_comment
    refine rolesOk_pyBind rolesOk_nil ?_
    intro action st h
    refine rolesOk_pyBind h ?_
    intro comment st h
    refine rolesOk_pyBind h ?_
    intro issue st h
    refine rolesOk_pyBind h ?_
    intro repo st h
    refine rolesOk_pyBind h ?_
    intro isPr st h
    cases isPr with
    | false => exact h
    | true =>
      refine rolesOk_pyBind h ?_
      intro issueNumber st h
      refine rolesOk_pyBind h ?_
      intro repoFullName st h
      refine rolesOk_pyBind h ?_
      intro u1 st h
      refine rolesOk_pyBind h ?_
      intro cuser st h
      refine rolesOk_pyBind h ?_
      intro clogin st h
      refine rolesOk_pyBind h ?_
      intro cbody st h
      refine rolesOk_pyBind (rolesOk_pySessionAdd _ _ _ _ (Or.inr (Or.inl rfl)) h) ?_
      intro u2 st h
      refine rolesOk_pyBind (rolesOk_pyPrint _ h) ?_
      intro u3 st h
      exact rolesOk_pyPrint _ h
